import Mathlib

/-!
Verification of the prompt-orchestration and response-interpretation pipeline
of the DATAez document Q&A assistant.

The Python source (backend/ai_assistant.py, backend/question_generator.py) is
shallowly embedded here.  Strings are manipulated through executable helper
functions on `List Char` that mirror the Python string primitives used by the
source (`str.lower`, `in`, `str.split(sep, 1)`, `str.replace`, `str.strip`,
`str.startswith`, `int(...)`, slicing, `find`/`rfind`).  The external
collaborators (the OpenAI chat completion call and `json.loads`) are modelled
as parameters: the gateway outcome is an `Except String String` (error message
or raw reply text) and the JSON decoder is a function
`String -> Option (List QDict)` where a decoded question object is an
association list of string keys to string values, the shape the source code
manipulates.  The tiktoken tokenizer is modelled as an abstract
encode/decode pair.
-/

set_option autoImplicit false

namespace DATAez

/-! ## Python string primitives on `List Char` -/

/-- Python whitespace characters recognised by `str.strip`. -/
def pyIsSpace (c : Char) : Bool :=
  c == ' ' || c == '\t' || c == '\n' || c == '\r' || c == '\x0b' || c == '\x0c'

/-- `str.strip()` on a character list: drop whitespace from both ends. -/
def stripL (l : List Char) : List Char :=
  ((l.dropWhile pyIsSpace).reverse.dropWhile pyIsSpace).reverse

/-- `str.strip()` on a `String`. -/
def pyStrip (s : String) : String :=
  String.mk (stripL s.toList)

/-- `str.lower()` (ASCII case folding, which covers every marker the source uses). -/
def lowerL (l : List Char) : List Char :=
  l.map Char.toLower

/-- Python `pat in s` substring test. -/
def containsL (pat : List Char) : List Char → Bool
  | [] => pat.isEmpty
  | c :: rest => pat.isPrefixOf (c :: rest) || containsL pat rest

/-- Python `s.split(pat, 1)` restricted to the case where `pat` occurs:
returns the parts before and after the first occurrence of `pat`,
or `none` when `pat` does not occur (so Python would return `[s]`). -/
def splitOnceL (pat : List Char) : List Char → Option (List Char × List Char)
  | [] => if pat.isEmpty then some ([], []) else none
  | c :: rest =>
    if pat.isPrefixOf (c :: rest) then some ([], (c :: rest).drop pat.length)
    else
      match splitOnceL pat rest with
      | some (a, b) => some (c :: a, b)
      | none => none

/-! ## `AIAssistant.answer_question`: answer/justification split -/

/-- The lowercase marker the source tests for membership ("justification:" in
full_response.lower()). -/
def markerLower : List Char := "justification:".data

/-- The exact-case marker the source splits on (full_response.split("Justification:", 1)). -/
def markerExact : List Char := "Justification:".data

/-- The answer/justification separation performed at the end of
`AIAssistant.answer_question` (ai_assistant.py lines 136-146).  The membership
test lowercases the reply but the split uses the exact-case marker
`"Justification:"`, exactly as in the source. -/
def splitAnswerJustification (full_response : String) : String × String :=
  if containsL markerLower (lowerL full_response.data) then
    match splitOnceL markerExact full_response.data with
    | some (a, b) => (pyStrip (String.mk a), pyStrip (String.mk b))
    | none => (full_response, "Based on the document content provided.")
  else
    (full_response, "Response is grounded in the document content.")

/-! ## More Python string primitives -/

/-- Python `s.split('\n')` on a character list: always returns at least one
(possibly empty) piece, like Python. -/
def splitCharL (c : Char) : List Char → List (List Char)
  | [] => [[]]
  | x :: r =>
    match splitCharL c r with
    | [] => [[]]
    | h :: t => if x == c then [] :: h :: t else (x :: h) :: t

/-- Fuel-driven worker for `pyRemoveAll`; the fuel is the input length, which
bounds the recursion since every step consumes at least one character. -/
def pyRemoveAllAux (pat : List Char) : Nat → List Char → List Char
  | 0, s => s
  | fuel + 1, s =>
    if !pat.isEmpty && pat.isPrefixOf s then
      pyRemoveAllAux pat fuel (s.drop pat.length)
    else
      match s with
      | [] => []
      | c :: rest => c :: pyRemoveAllAux pat fuel rest

/-- Python `s.replace(pat, "")`: delete every (leftmost, non-overlapping)
occurrence of `pat`. -/
def pyRemoveAll (pat s : List Char) : List Char :=
  pyRemoveAllAux pat s.length s

/-- Accumulate the value of a digit string; `none` on the first non-digit. -/
def digitsValAux : Nat → List Char → Option Nat
  | acc, [] => some acc
  | acc, c :: r => if c.isDigit then digitsValAux (10 * acc + (c.toNat - 48)) r else none

/-- Value of a non-empty all-digit string, else `none`. -/
def digitsVal : List Char → Option Nat
  | [] => none
  | l => digitsValAux 0 l

/-- Python `int(s)`: optional surrounding whitespace, optional sign, decimal
digits; `none` models the `ValueError` the source catches. -/
def pyIntL (l : List Char) : Option Int :=
  match stripL l with
  | '-' :: ds => (digitsVal ds).map (fun n => -(n : Int))
  | '+' :: ds => (digitsVal ds).map (fun n => (n : Int))
  | ds => (digitsVal ds).map (fun n => (n : Int))

/-! ## `AIAssistant.evaluate_user_answer`: response parsing -/

/-- Result triple of the evaluation flow. -/
structure EvaluationResult where
  evaluation : String
  feedback : String
  score : Int
  deriving DecidableEq

/-- Line tag scanned for the evaluation verdict. -/
def evalTag : List Char := "Evaluation:".data

/-- Line tag scanned for the feedback text. -/
def feedbackTag : List Char := "Feedback:".data

/-- Line tag scanned for the numeric score. -/
def scoreTag : List Char := "Score:".data

/-- One iteration of the line-scanning loop in `AIAssistant.evaluate_user_answer`
(ai_assistant.py lines 207-216): an `if/elif` chain on line-start prefixes,
with `int` parse failure falling back to 5. -/
def parseEvalStep (acc : EvaluationResult) (line : List Char) : EvaluationResult :=
  if evalTag.isPrefixOf line then
    { acc with evaluation := String.mk (stripL (pyRemoveAll evalTag line)) }
  else if feedbackTag.isPrefixOf line then
    { acc with feedback := String.mk (stripL (pyRemoveAll feedbackTag line)) }
  else if scoreTag.isPrefixOf line then
    match pyIntL (pyRemoveAll scoreTag line) with
    | some n => { acc with score := n }
    | none => { acc with score := 5 }
  else acc

/-- The response-parsing part of `AIAssistant.evaluate_user_answer`
(ai_assistant.py lines 199-218): defaults
`("Partially Correct", whole reply, 5)`, then scan the reply's lines. -/
def parseEvaluation (full_response : String) : EvaluationResult :=
  (splitCharL '\n' full_response.data).foldl parseEvalStep
    { evaluation := "Partially Correct", feedback := full_response, score := 5 }

/-! ## `AIAssistant` conversation history and token budgeting -/

/-- `AIAssistant.add_to_conversation_history` (ai_assistant.py lines 223-232):
append the (question, answer) pair, then pop the head if the length exceeds 10. -/
def add_to_conversation_history (history : List (String × String))
    (question answer : String) : List (String × String) :=
  let h := history ++ [(question, answer)]
  if h.length > 10 then h.drop 1 else h

/-- Replay a sequence of appends starting from the empty history created at
session start. -/
def run_conversation (entries : List (String × String)) : List (String × String) :=
  entries.foldl (fun h e => add_to_conversation_history h e.1 e.2) []

/-- The tiktoken `cl100k_base` encoding used by the source, modelled as an
abstract encode/decode pair (the tokenizer is an external library). -/
structure Tokenizer where
  encode : String → List Nat
  decode : List Nat → String

/-- `AIAssistant.count_tokens` (ai_assistant.py lines 30-32). -/
def count_tokens (enc : Tokenizer) (text : String) : Nat :=
  (enc.encode text).length

/-- `AIAssistant.truncate_text` (ai_assistant.py lines 34-42): return the text
unchanged when it fits the budget, else decode the first `max_tokens` tokens. -/
def truncate_text (enc : Tokenizer) (text : String) (max_tokens : Nat) : String :=
  if (enc.encode text).length ≤ max_tokens then text
  else enc.decode ((enc.encode text).take max_tokens)

/-- A concrete tokenizer (one token per character) used to instantiate the
abstract tokenizer in witnesses. -/
def charTokenizer : Tokenizer where
  encode := fun s => s.data.map Char.toNat
  decode := fun l => String.mk (l.map Char.ofNat)

/-! ## `QuestionGenerator`: question objects, parsing, fallback, validation

A decoded question object is modelled as an association list of string keys to
string values, the shape `json.loads` hands to the source's loop. -/

/-- A Python dict with string keys and string values, as an association list. -/
abbrev QDict := List (String × String)

/-- Python `q.get(k)`: first binding of `k`, if any. -/
def qget (q : QDict) (k : String) : Option String :=
  (q.find? (fun p => p.1 == k)).map Prod.snd

/-- Python `k in q`. -/
def qhas (q : QDict) (k : String) : Bool :=
  (qget q k).isSome

/-- The cleaning step of question_generator.py lines 94-99: strip `question`
and `expected_answer`, default `difficulty` to "Medium" and `type` to
"comprehension" (`difficulty` and `type` are not stripped). -/
def cleanQuestion (q : QDict) : QDict :=
  [("question", pyStrip ((qget q "question").getD "")),
   ("expected_answer", pyStrip ((qget q "expected_answer").getD "")),
   ("difficulty", (qget q "difficulty").getD "Medium"),
   ("type", (qget q "type").getD "comprehension")]

/-- The key filter of question_generator.py line 93: all of `question`,
`expected_answer` and `difficulty` must be present. -/
def hasRequiredKeys (q : QDict) : Bool :=
  qhas q "question" && qhas q "expected_answer" && qhas q "difficulty"

/-- The JSON branch of `QuestionGenerator.generate_challenge_questions`
(question_generator.py lines 90-101) applied to the decoded array: keep the
objects with all three required keys, clean them, truncate to
`num_questions`. -/
def parseQuestionSet (questions : List QDict) (num_questions : Nat) : List QDict :=
  (questions.foldl
    (fun acc q => if hasRequiredKeys q then acc ++ [cleanQuestion q] else acc)
    []).take num_questions

/-- The literal line markers of `QuestionGenerator._parse_questions_manually`
(question_generator.py line 119). -/
def questionMarkers : List (List Char) :=
  ["1.".data, "2.".data, "3.".data, "Question:".data, "Q:".data]

/-- Python `line.startswith(('1.', '2.', '3.', 'Question:', 'Q:'))`. -/
def isQuestionMarkerLine (l : List Char) : Bool :=
  questionMarkers.any (fun m => m.isPrefixOf l)

/-- The accumulation loop of `QuestionGenerator._parse_questions_manually`
(question_generator.py lines 116-129): a marker line flushes the current
question and starts a new one with fixed placeholder fields. -/
def manualLoop : List (List Char) → Option QDict → List QDict
  | [], cur =>
    match cur with
    | some q => [q]
    | none => []
  | line :: rest, cur =>
    let ls := stripL line
    if isQuestionMarkerLine ls then
      let newQ : QDict :=
        [("question", String.mk ls),
         ("expected_answer", "Based on document content"),
         ("difficulty", "Medium"),
         ("type", "comprehension")]
      match cur with
      | some q => q :: manualLoop rest (some newQ)
      | none => manualLoop rest (some newQ)
    else
      manualLoop rest cur

/-- `QuestionGenerator._parse_questions_manually` (question_generator.py
lines 111-131). -/
def parse_questions_manually (response_text : String) (num_questions : Nat) : List QDict :=
  (manualLoop (splitCharL '\n' response_text.data) none).take num_questions

/-- Python slicing `l[start:stop]` with negative-index normalisation and
clamping, as used by `response_text[start:end]`. -/
def pySlice (l : List Char) (start stop : Int) : List Char :=
  let n : Int := l.length
  let norm : Int → Int := fun i => if i < 0 then max (i + n) 0 else min i n
  (l.take (norm stop).toNat).drop (norm start).toNat

/-- Python `s.find(c)`: index of the first occurrence, `-1` if absent. -/
def pyFindChar (c : Char) (l : List Char) : Int :=
  match l.findIdx? (fun x => x == c) with
  | some i => (i : Int)
  | none => -1

/-- Python `s.rfind(c)`: index of the last occurrence, `-1` if absent. -/
def pyRFindChar (c : Char) (l : List Char) : Int :=
  match l.reverse.findIdx? (fun x => x == c) with
  | some i => (l.length : Int) - 1 - (i : Int)
  | none => -1

/-- The extraction step of question_generator.py lines 84-86:
`response_text[response_text.find('['):response_text.rfind(']') + 1]`. -/
def extractJsonText (response_text : String) : String :=
  let l := response_text.data
  String.mk (pySlice l (pyFindChar '[' l) (pyRFindChar ']' l + 1))

/-- The static fallback set of `QuestionGenerator._generate_fallback_questions`
(question_generator.py lines 135-154), verbatim. -/
def fallback_questions : List QDict :=
  [[("question", "What is the main topic or theme discussed in this document?"),
    ("expected_answer", "The main topic should be identified from the document content"),
    ("difficulty", "Easy"),
    ("type", "comprehension")],
   [("question", "What are the key findings or conclusions presented in the document?"),
    ("expected_answer", "Key findings should be summarized from the document"),
    ("difficulty", "Medium"),
    ("type", "analysis")],
   [("question", "Based on the information provided, what implications or applications can be drawn?"),
    ("expected_answer", "Implications should be inferred from the document content"),
    ("difficulty", "Hard"),
    ("type", "inference")]]

/-- `QuestionGenerator._generate_fallback_questions` (question_generator.py
lines 133-156); the document text is accepted and ignored, as in the source. -/
def generate_fallback_questions (_document_text : String) (num_questions : Nat) :
    List QDict :=
  fallback_questions.take num_questions

/-- `QuestionGenerator.generate_challenge_questions` (question_generator.py
lines 24-109).  `decodeJson` models `json.loads` restricted to arrays of
string-valued objects (`none` models `json.JSONDecodeError`); `gateway` models
the chat completion call (`Except.error` models the exception caught at line
107, whose handler returns the fallback set). -/
def generate_challenge_questions (decodeJson : String → Option (List QDict))
    (gateway : Except String String) (document_text : String)
    (num_questions : Nat) : List QDict :=
  match gateway with
  | Except.error _ => generate_fallback_questions document_text num_questions
  | Except.ok content =>
    let response_text := pyStrip content
    match decodeJson (extractJsonText response_text) with
    | some questions => parseQuestionSet questions num_questions
    | none => parse_questions_manually response_text num_questions

/-- Python truthiness of `q.get(k)`: `None` and the empty string are falsy. -/
def pyTruthyStr : Option String → Bool
  | none => false
  | some s => !s.data.isEmpty

/-- The per-question condition of `QuestionGenerator.validate_questions`
(question_generator.py lines 234-237). -/
def questionPassesGate (q : QDict) : Bool :=
  pyTruthyStr (qget q "question")
    && decide (10 < (stripL ((qget q "question").getD "").data).length)
    && pyTruthyStr (qget q "expected_answer")
    && decide (5 < (stripL ((qget q "expected_answer").getD "").data).length)

/-- `QuestionGenerator.validate_questions` (question_generator.py
lines 219-241); the document text is accepted and ignored, as in the source. -/
def validate_questions (questions : List QDict) (_document_text : String) :
    List QDict :=
  questions.foldl
    (fun acc q => if questionPassesGate q then acc ++ [q] else acc) []

/-- The validation gate as the spec states it: the `question` field is present
with stripped length > 10 and the `expected_answer` field is present with
stripped length > 5. -/
def validGateSpec (q : QDict) : Bool :=
  match qget q "question" with
  | none => false
  | some qs =>
    match qget q "expected_answer" with
    | none => false
    | some ea =>
      decide (10 < (stripL qs.data).length) && decide (5 < (stripL ea.data).length)

/-! ## `AIAssistant` top-level flows (gateway outcome made explicit) -/

/-- `AIAssistant.generate_summary` (ai_assistant.py lines 44-79) as a function
of the gateway outcome: the reply stripped on success, a formatted error
string on failure. -/
def generate_summary (gateway : Except String String) : String :=
  match gateway with
  | Except.ok content => pyStrip content
  | Except.error e => "Error generating summary: " ++ e

/-- `AIAssistant.answer_question` (ai_assistant.py lines 81-151) as a function
of the gateway outcome. -/
def answer_question (gateway : Except String String) : String × String :=
  match gateway with
  | Except.ok content => splitAnswerJustification (pyStrip content)
  | Except.error e => ("Error answering question: " ++ e, "")

/-- `AIAssistant.evaluate_user_answer` (ai_assistant.py lines 153-221) as a
function of the gateway outcome; hard failure carries score 0. -/
def evaluate_user_answer (gateway : Except String String) : EvaluationResult :=
  match gateway with
  | Except.ok content => parseEvaluation (pyStrip content)
  | Except.error e =>
    { evaluation := "Error", feedback := "Error evaluating answer: " ++ e, score := 0 }

theorem splitOnceL_sound (pat : List Char) :
    ∀ s a b, splitOnceL pat s = some (a, b) → s = a ++ pat ++ b := by
  intro s
  induction s with
  | nil =>
    intro a b h
    simp [splitOnceL] at h
    obtain ⟨h1, h2, h3⟩ := h
    subst h1; subst h2; subst h3; rfl
  | cons c rest ih =>
    intro a b h
    by_cases hp : pat.isPrefixOf (c :: rest)
    · simp only [splitOnceL, if_pos hp] at h
      obtain ⟨t, ht⟩ := List.isPrefixOf_iff_prefix.mp hp
      cases h
      simp [← ht, List.drop_left]
    · simp only [splitOnceL, if_neg hp] at h
      cases hres : splitOnceL pat rest with
      | none => rw [hres] at h; cases h
      | some p =>
        obtain ⟨a0, b0⟩ := p
        rw [hres] at h
        cases h
        simp [ih a0 b hres]

theorem containsL_eq_isSome (pat : List Char) :
    ∀ s, containsL pat s = (splitOnceL pat s).isSome := by
  intro s
  induction s with
  | nil =>
    by_cases hp : pat.isEmpty <;> simp [containsL, splitOnceL, hp]
  | cons c rest ih =>
    by_cases hp : pat.isPrefixOf (c :: rest)
    · simp [containsL, splitOnceL, hp]
    · simp only [containsL, splitOnceL, if_neg hp, Bool.false_or,
        Bool.or_eq_true, ih]
      cases hres : splitOnceL pat rest with
      | none => simp [hp]
      | some p => simp [hp]

theorem containsL_nil_pat (s : List Char) : containsL [] s = true := by
  cases s with
  | nil => rfl
  | cons c rest => simp [containsL, List.isPrefixOf]

theorem containsL_append_middle (p b : List Char) :
    ∀ a, containsL p (a ++ p ++ b) = true := by
  intro a
  induction a with
  | nil =>
    cases p with
    | nil => simpa using containsL_nil_pat b
    | cons x xs =>
      have hpre : (x :: xs).isPrefixOf ((x :: xs) ++ b) = true :=
        List.isPrefixOf_iff_prefix.mpr (List.prefix_append _ _)
      simp [containsL, hpre]
  | cons y a0 ih =>
    simp only [List.cons_append, containsL, Bool.or_eq_true]
    exact Or.inr (by simpa using ih)

theorem containsL_lower {pat s : List Char} (h : containsL pat s = true) :
    containsL (lowerL pat) (lowerL s) = true := by
  have hsome : (splitOnceL pat s).isSome := by rw [← containsL_eq_isSome]; exact h
  obtain ⟨⟨a, b⟩, hab⟩ := Option.isSome_iff_exists.mp hsome
  have hs := splitOnceL_sound pat s a b hab
  subst hs
  have : lowerL (a ++ pat ++ b) = lowerL a ++ lowerL pat ++ lowerL b := by
    simp [lowerL]
  rw [this]
  exact containsL_append_middle _ _ _

/-- Claim C1 counterexample: a reply containing the marker only in lowercase
("justification:") with non-empty text on both sides is NOT split into its two
parts: the detection is case-insensitive but the split uses the exact-case
marker "Justification:", so the whole reply is returned as the answer together
with the alternative generic justification string. -/
theorem c1_counterexample :
    splitAnswerJustification "Answer.\njustification: because X" =
      ("Answer.\njustification: because X", "Based on the document content provided.") ∧
    ("Answer.\njustification: because X", "Based on the document content provided.") ≠
      (("Answer.", "because X") : String × String) := by
  constructor
  · decide
  · decide

/-- Claim C1 (amended): the split locates the marker case-insensitively, but
splits on the exact-case "Justification:".  When the exact-case marker occurs,
the reply is split at an occurrence of the marker and both (possibly empty)
parts are returned stripped; when the marker occurs only in a different letter
case, the whole reply is returned with the fixed string "Based on the document
content provided."; when no marker occurs at all, the whole reply is returned
with "Response is grounded in the document content.".  It never fails, and the
spec's two examples hold. -/
theorem c1_split_answer_justification (s : String) :
    (splitAnswerJustification "Answer text.\nJustification: because X" =
      ("Answer text.", "because X")) ∧
    (splitAnswerJustification "Just an answer, no marker" =
      ("Just an answer, no marker", "Response is grounded in the document content.")) ∧
    (containsL markerLower (lowerL s.data) = false →
      splitAnswerJustification s = (s, "Response is grounded in the document content.")) ∧
    (containsL markerLower (lowerL s.data) = true →
      containsL markerExact s.data = false →
      splitAnswerJustification s = (s, "Based on the document content provided.")) ∧
    (containsL markerExact s.data = true →
      ∃ a b, s.data = a ++ markerExact ++ b ∧
        splitAnswerJustification s = (pyStrip (String.mk a), pyStrip (String.mk b))) := by
  refine ⟨by decide, by decide, ?_, ?_, ?_⟩
  · intro h
    simp [splitAnswerJustification, h]
  · intro h1 h2
    have hnone : splitOnceL markerExact s.data = none := by
      have heq := containsL_eq_isSome markerExact s.data
      rw [h2] at heq
      exact Option.not_isSome_iff_eq_none.mp (by simp [← heq])
    simp [splitAnswerJustification, h1, hnone]
  · intro h
    have hsome : (splitOnceL markerExact s.data).isSome := by
      rw [← containsL_eq_isSome]; exact h
    obtain ⟨⟨a, b⟩, hab⟩ := Option.isSome_iff_exists.mp hsome
    refine ⟨a, b, splitOnceL_sound _ _ _ _ hab, ?_⟩
    have hlow : containsL markerLower (lowerL s.data) = true := by
      have hl := containsL_lower h
      have hJ : lowerL markerExact = markerLower := by decide
      rw [hJ] at hl
      exact hl
    simp [splitAnswerJustification, hlow, hab]

/-- Witness for the amended claim C1 theorem: a concrete reply where the
case-insensitive detection fires but the exact-case split does not. -/
theorem c1_split_answer_justification_witness :
    splitAnswerJustification "See above.\njustification: see doc" =
      ("See above.\njustification: see doc", "Based on the document content provided.") :=
  (c1_split_answer_justification "See above.\njustification: see doc").2.2.2.1
    (by decide) (by decide)

/-! ## Shared folding lemmas -/

theorem foldl_filter {α : Type} (p : α → Bool) :
    ∀ (l : List α) (acc : List α),
      l.foldl (fun a x => if p x then a ++ [x] else a) acc = acc ++ l.filter p := by
  intro l
  induction l with
  | nil => intro acc; simp
  | cons x rest ih =>
    intro acc
    by_cases hx : p x
    · simp [hx, ih, List.filter_cons]
    · simp [hx, ih, List.filter_cons]

theorem foldl_filter_map {α β : Type} (p : α → Bool) (f : α → β) :
    ∀ (l : List α) (acc : List β),
      l.foldl (fun a x => if p x then a ++ [f x] else a) acc
        = acc ++ (l.filter p).map f := by
  intro l
  induction l with
  | nil => intro acc; simp
  | cons x rest ih =>
    intro acc
    by_cases hx : p x
    · simp [hx, ih, List.filter_cons]
    · simp [hx, ih, List.filter_cons]

/-! ## Conversation history -/

theorem run_conversation_eq_drop :
    ∀ entries : List (String × String),
      run_conversation entries = entries.drop (entries.length - 10) := by
  intro entries
  induction entries using List.reverseRecOn with
  | nil => rfl
  | append_singleton l e ih =>
    have hstep : run_conversation (l ++ [e]) =
        add_to_conversation_history (run_conversation l) e.1 e.2 := by
      simp [run_conversation, List.foldl_append]
    rw [hstep, ih]
    simp only [add_to_conversation_history]
    by_cases hk : l.length < 10
    · have hlen : ¬ 10 < (l.drop (l.length - 10) ++ [(e.1, e.2)]).length := by
        simp [List.length_drop]
        omega
      rw [if_neg hlen]
      have h1 : l.length - 10 = 0 := by omega
      have h2 : (l ++ [e]).length - 10 = 0 := by
        simp
        omega
      rw [h1, h2]
      simp
    · have hlen : 10 < (l.drop (l.length - 10) ++ [(e.1, e.2)]).length := by
        simp [List.length_drop]
        omega
      rw [if_pos hlen]
      rw [List.drop_append_of_le_length (by simp [List.length_drop]; omega)]
      rw [List.drop_drop]
      rw [List.drop_append_of_le_length (by simp)]
      have heq : l.length - 10 + 1 = l.length - 9 := by omega
      simp [heq]

/-- Claim C2: starting from the empty history, the conversation history holds
at most 10 entries after every sequence of appends, keeps entries in insertion
order with the oldest evicted on overflow (it always equals the last 10
appended entries), and after appending 11 entries e1..e11 in order it holds
exactly e2..e11 in order. -/
theorem c2_conversation_history :
    (∀ entries : List (String × String), (run_conversation entries).length ≤ 10) ∧
    (∀ entries : List (String × String),
      run_conversation entries = entries.drop (entries.length - 10)) ∧
    (run_conversation
        [("q1", "a1"), ("q2", "a2"), ("q3", "a3"), ("q4", "a4"), ("q5", "a5"),
         ("q6", "a6"), ("q7", "a7"), ("q8", "a8"), ("q9", "a9"), ("q10", "a10"),
         ("q11", "a11")] =
      [("q2", "a2"), ("q3", "a3"), ("q4", "a4"), ("q5", "a5"),
       ("q6", "a6"), ("q7", "a7"), ("q8", "a8"), ("q9", "a9"), ("q10", "a10"),
       ("q11", "a11")]) := by
  refine ⟨?_, run_conversation_eq_drop, by decide⟩
  intro entries
  rw [run_conversation_eq_drop, List.length_drop]
  omega

/-! ## Evaluation parsing -/

theorem parseEval_fold_const :
    ∀ (lines : List (List Char)) (acc : EvaluationResult),
      (∀ l ∈ lines, evalTag.isPrefixOf l = false ∧ feedbackTag.isPrefixOf l = false ∧
        scoreTag.isPrefixOf l = false) →
      lines.foldl parseEvalStep acc = acc := by
  intro lines
  induction lines with
  | nil => intro acc _; rfl
  | cons l rest ih =>
    intro acc h
    obtain ⟨h1, h2, h3⟩ := h l (List.mem_cons_self _ _)
    have hstep : parseEvalStep acc l = acc := by
      simp [parseEvalStep, h1, h2, h3]
    rw [List.foldl_cons, hstep]
    exact ih acc (fun x hx => h x (List.mem_cons_of_mem _ hx))

/-- Claim C5: the reply is split into lines and scanned for the line-start
prefixes "Evaluation:", "Feedback:" and "Score:"; each missing prefix leaves
its default (evaluation "Partially Correct", feedback the whole raw reply,
score 5); an unparseable score defaults to 5 rather than raising; and the
spec's two examples hold. -/
theorem c5_parse_evaluation (raw : String) :
    (parseEvaluation "Evaluation: Correct\nFeedback: Good job\nScore: 9" =
      { evaluation := "Correct", feedback := "Good job", score := 9 }) ∧
    (parseEvaluation "garbage text" =
      { evaluation := "Partially Correct", feedback := "garbage text", score := 5 }) ∧
    (parseEvaluation "Evaluation: Correct\nScore: nine" =
      { evaluation := "Correct", feedback := "Evaluation: Correct\nScore: nine",
        score := 5 }) ∧
    ((∀ l ∈ splitCharL '\n' raw.data,
        evalTag.isPrefixOf l = false ∧ feedbackTag.isPrefixOf l = false ∧
          scoreTag.isPrefixOf l = false) →
      parseEvaluation raw =
        { evaluation := "Partially Correct", feedback := raw, score := 5 }) := by
  refine ⟨by decide, by decide, by decide, ?_⟩
  intro h
  exact parseEval_fold_const _ _ h

/-- Witness for claim C5's theorem: a reply none of whose lines carries any of
the three tags keeps all three defaults. -/
theorem c5_parse_evaluation_witness :
    parseEvaluation "no tags present" =
      { evaluation := "Partially Correct", feedback := "no tags present", score := 5 } :=
  (c5_parse_evaluation "no tags present").2.2.2 (by decide)

/-! ## Token budgeting -/

/-- Claim C7: when the token count of a text is within the ceiling, truncation
returns the text exactly unchanged. -/
theorem c7_truncate_identity (enc : Tokenizer) (text : String) (k : Nat)
    (h : count_tokens enc text ≤ k) :
    truncate_text enc text k = text := by
  unfold truncate_text
  exact if_pos h

/-- Witness for claim C7's theorem at a concrete text and ceiling, with the
one-token-per-character tokenizer. -/
theorem c7_truncate_identity_witness :
    count_tokens charTokenizer "hello" ≤ 8 ∧
      truncate_text charTokenizer "hello" 8 = "hello" :=
  ⟨by decide, c7_truncate_identity charTokenizer "hello" 8 (by decide)⟩

/-- Claim C8: truncation is idempotent.  The external tokenizer is abstract
here, assumed only to never produce a longer encoding when re-encoding a
decoded token list (the contraction property of byte-pair decoding). -/
theorem c8_truncate_idempotent (enc : Tokenizer)
    (hre : ∀ ts : List Nat, (enc.encode (enc.decode ts)).length ≤ ts.length)
    (text : String) (k : Nat) :
    truncate_text enc (truncate_text enc text k) k = truncate_text enc text k := by
  by_cases h : (enc.encode text).length ≤ k
  · have h1 : truncate_text enc text k = text := if_pos h
    rw [h1]
    exact h1
  · have h1 : truncate_text enc text k = enc.decode ((enc.encode text).take k) :=
      if_neg h
    rw [h1]
    have hlen : (enc.encode (enc.decode ((enc.encode text).take k))).length ≤ k :=
      le_trans (hre _) (by rw [List.length_take]; exact min_le_left _ _)
    exact if_pos hlen

/-- Witness for claim C8's theorem with the one-token-per-character tokenizer,
which satisfies the re-encoding contraction assumption. -/
theorem c8_truncate_idempotent_witness :
    truncate_text charTokenizer (truncate_text charTokenizer "abcdef" 3) 3 =
      truncate_text charTokenizer "abcdef" 3 :=
  c8_truncate_idempotent charTokenizer
    (fun ts => by simp [charTokenizer]) "abcdef" 3

/-! ## Question generation -/

/-- Claim C3: when the gateway call fails, question generation returns exactly
the static fallback set truncated to the requested count; at the default
request of 3 questions this is the full 3-entry set with difficulties Easy,
Medium, Hard in that order and distinct types comprehension, analysis,
inference. -/
theorem c3_gateway_failure_fallback :
    (∀ (decodeJson : String → Option (List QDict)) (err doc : String) (n : Nat),
      generate_challenge_questions decodeJson (Except.error err) doc n =
        fallback_questions.take n) ∧
    (∀ (decodeJson : String → Option (List QDict)) (err doc : String),
      generate_challenge_questions decodeJson (Except.error err) doc 3 =
        [[("question", "What is the main topic or theme discussed in this document?"),
          ("expected_answer", "The main topic should be identified from the document content"),
          ("difficulty", "Easy"),
          ("type", "comprehension")],
         [("question", "What are the key findings or conclusions presented in the document?"),
          ("expected_answer", "Key findings should be summarized from the document"),
          ("difficulty", "Medium"),
          ("type", "analysis")],
         [("question", "Based on the information provided, what implications or applications can be drawn?"),
          ("expected_answer", "Implications should be inferred from the document content"),
          ("difficulty", "Hard"),
          ("type", "inference")]]) :=
  ⟨fun _ _ _ _ => rfl, fun _ _ _ => rfl⟩

/-- Claim C4 counterexample: whitespace is NOT trimmed on every string field
of a kept question object — a `difficulty` value " Easy " survives with its
surrounding spaces. -/
theorem c4_counterexample :
    parseQuestionSet
        [[("question", "What is discussed in this document?"),
          ("expected_answer", "The main topic"),
          ("difficulty", " Easy ")]] 3 =
      [[("question", "What is discussed in this document?"),
        ("expected_answer", "The main topic"),
        ("difficulty", " Easy "),
        ("type", "comprehension")]] ∧
    (" Easy " : String) ≠ "Easy" :=
  ⟨by decide, by decide⟩

/-- Claim C4 (amended): when the decoded substring from the first open bracket
to the last close bracket is a JSON array of objects, the result keeps exactly
the array elements containing all three keys question, expected_answer and
difficulty, in original order, fills type with default "comprehension" when
absent, trims whitespace on the question and expected_answer fields (difficulty
and type are passed through untrimmed), and truncates to the first
num_questions entries; the spec's one-object example parses with type
defaulted. -/
theorem c4_parse_question_set
    (decodeJson : String → Option (List QDict)) (reply doc : String)
    (n : Nat) (qs : List QDict)
    (hdec : decodeJson (extractJsonText (pyStrip reply)) = some qs) :
    generate_challenge_questions decodeJson (Except.ok reply) doc n =
      ((qs.filter hasRequiredKeys).map cleanQuestion).take n ∧
    (∀ q : QDict,
      qget (cleanQuestion q) "question" =
          some (pyStrip ((qget q "question").getD "")) ∧
        qget (cleanQuestion q) "expected_answer" =
          some (pyStrip ((qget q "expected_answer").getD "")) ∧
        qget (cleanQuestion q) "difficulty" =
          some ((qget q "difficulty").getD "Medium") ∧
        qget (cleanQuestion q) "type" =
          some ((qget q "type").getD "comprehension")) ∧
    parseQuestionSet
        [[("question", "Q1?"), ("expected_answer", "A1"), ("difficulty", "Easy")]] 3 =
      [[("question", "Q1?"), ("expected_answer", "A1"), ("difficulty", "Easy"),
        ("type", "comprehension")]] := by
  refine ⟨?_, ?_, by decide⟩
  · have hok : generate_challenge_questions decodeJson (Except.ok reply) doc n =
        parseQuestionSet qs n := by
      simp only [generate_challenge_questions, hdec]
    rw [hok]
    unfold parseQuestionSet
    rw [foldl_filter_map]
    simp
  · intro q
    exact ⟨rfl, rfl, rfl, rfl⟩

/-- Witness for claim C4's amended theorem: a decoder returning the spec's
one-object array produces the one cleaned question with type defaulted. -/
theorem c4_parse_question_set_witness :
    generate_challenge_questions
        (fun _ => some [[("question", "Q1?"), ("expected_answer", "A1"),
          ("difficulty", "Easy")]])
        (Except.ok "unused") "doc" 3 =
      [[("question", "Q1?"), ("expected_answer", "A1"), ("difficulty", "Easy"),
        ("type", "comprehension")]] :=
  Eq.trans
    ((c4_parse_question_set
        (fun _ => some [[("question", "Q1?"), ("expected_answer", "A1"),
          ("difficulty", "Easy")]])
        "unused" "doc" 3
        [[("question", "Q1?"), ("expected_answer", "A1"), ("difficulty", "Easy")]]
        rfl).1)
    (by decide)

/-! ## Error handling of the three assistant flows -/

/-- Claim C6: on gateway failure the summary, answer and evaluation flows each
return a value carrying a formatted error string instead of raising; the
evaluation hard-failure value carries score 0, while an unparseable score in a
successful reply defaults to 5. -/
theorem c6_error_handling :
    (∀ e : String,
      generate_summary (Except.error e) = "Error generating summary: " ++ e) ∧
    (∀ e : String,
      answer_question (Except.error e) = ("Error answering question: " ++ e, "")) ∧
    (∀ e : String,
      evaluate_user_answer (Except.error e) =
        { evaluation := "Error", feedback := "Error evaluating answer: " ++ e,
          score := 0 }) ∧
    (evaluate_user_answer (Except.ok "Evaluation: Correct\nScore: not a number") =
      { evaluation := "Correct",
        feedback := "Evaluation: Correct\nScore: not a number", score := 5 }) :=
  ⟨fun _ => rfl, fun _ => rfl, fun _ => rfl, by decide⟩

/-! ## Question validation -/

theorem questionPassesGate_eq_spec (q : QDict) :
    questionPassesGate q = validGateSpec q := by
  unfold questionPassesGate validGateSpec
  cases hq : qget q "question" with
  | none => simp [pyTruthyStr]
  | some s =>
    cases he : qget q "expected_answer" with
    | none => simp [pyTruthyStr]
    | some t =>
      simp only [Option.getD_some, pyTruthyStr]
      obtain ⟨sd⟩ := s
      obtain ⟨td⟩ := t
      cases sd with
      | nil => simp [stripL]
      | cons c cs =>
        cases td with
        | nil => simp [stripL]
        | cons d ds => simp

/-- Claim C9: validation returns exactly the subsequence of records whose
question field is present with stripped length > 10 and whose expected_answer
field is present with stripped length > 5, in original order with surviving
records unmodified; a record whose question text is "short" is dropped. -/
theorem c9_validate_questions :
    (∀ (questions : List QDict) (doc : String),
      validate_questions questions doc = questions.filter validGateSpec) ∧
    (∀ doc : String,
      validate_questions
        [[("question", "short"),
          ("expected_answer", "a well formed expected answer")]] doc = []) := by
  constructor
  · intro questions doc
    unfold validate_questions
    rw [foldl_filter, List.nil_append]
    exact List.filter_congr (fun a _ => questionPassesGate_eq_spec a)
  · intro doc
    rfl

/-- Claim C10: every fallback question passes the validation gate, so
validation leaves the (truncated) fallback set unchanged; in particular
question generation after a gateway failure still yields a non-empty set after
validation whenever at least one question was requested. -/
theorem c10_fallback_passes_validation :
    (∀ (doc : String) (n : Nat),
      validate_questions (generate_fallback_questions doc n) doc =
        generate_fallback_questions doc n) ∧
    (∀ (decodeJson : String → Option (List QDict)) (err doc : String) (n : Nat),
      validate_questions
          (generate_challenge_questions decodeJson (Except.error err) doc n) doc =
        generate_challenge_questions decodeJson (Except.error err) doc n) ∧
    (∀ (doc : String) (n : Nat), 1 ≤ n →
      validate_questions (generate_fallback_questions doc n) doc ≠ []) := by
  have hkey : ∀ (doc : String) (n : Nat),
      validate_questions (fallback_questions.take n) doc =
        fallback_questions.take n := by
    intro doc n
    have hall3 : ∀ x ∈ fallback_questions, questionPassesGate x = true := by decide
    have hall : ∀ x ∈ fallback_questions.take n, questionPassesGate x = true :=
      fun x hx => hall3 x (List.take_subset n fallback_questions hx)
    unfold validate_questions
    rw [foldl_filter, List.nil_append]
    exact List.filter_eq_self.mpr hall
  refine ⟨fun doc n => hkey doc n, fun d e doc n => hkey doc n, ?_⟩
  intro doc n hn
  rw [show generate_fallback_questions doc n = fallback_questions.take n from rfl,
    hkey]
  cases n with
  | zero => exact absurd hn (by decide)
  | succ m => simp [fallback_questions]

/-- Witness for claim C10's theorem: validating the fallback set produced for
the default request of 3 questions yields a non-empty set. -/
theorem c10_fallback_passes_validation_witness :
    validate_questions (generate_fallback_questions "doc" 3) "doc" ≠ [] :=
  c10_fallback_passes_validation.2.2 "doc" 3 (by decide)

end DATAez
